import Mathlib

/-
Verification of the Prompt Governance Pipeline of the ai_governance
repository (browser-extension core).  The definitions below are a shallow
embedding of the JavaScript sources:

  src/browser-extension/src/shared/pii-detector.js   (PIIDetector)
  src/browser-extension/src/shared/api-client.js     (APIClient)
  src/browser-extension/src/shared/content-core.js   (ContentCore)
  src/browser-extension/src/shared/variant-modal.js  (VariantModal)
  src/browser-extension/src/content/claude.js        (interceptPrompt)
  src/browser-extension/config.js                    (CONFIG)

Asynchronous awaits are embedded by passing the awaited outcome in an
environment record; DOM reads and network fetches are oracles passed as
function arguments.  JavaScript exceptions are Except values; a JS
try/catch is a match on that Except.
-/

namespace AIGov

/-! ## Risk levels (the string values low / medium / high used in the sources) -/

inductive Risk where
  | low
  | medium
  | high
deriving DecidableEq, Repr

/-- Numeric severity used only to state the aggregation order high > medium > low. -/
def Risk.rank : Risk → Nat
  | .low => 0
  | .medium => 1
  | .high => 2

/-- Maximum of two risk tiers under the order high > medium > low. -/
def Risk.sup (a b : Risk) : Risk :=
  if a.rank ≤ b.rank then b else a

/-- Maximum tier of a list of tiers, low for the empty list. -/
def listRiskMax (l : List Risk) : Risk :=
  l.foldl Risk.sup .low

/-! ## PIIDetector (pii-detector.js)

A registry entry of `this.patterns`: the JS regex is embedded as an oracle
`matcher : String → List String` returning the array that `text.match(regex)`
yields (the empty list standing for a null match result).  The seven
registered entries (email, phone, ssn, creditCard, ipAddress, apiKey, name)
all have this shape; the claims quantify over the registry. -/

structure Pattern where
  type : String
  risk : Risk
  matcher : String → List String

structure Finding where
  type : String
  count : Nat
  risk : Risk
  examples : List String
deriving DecidableEq, Repr

structure PIIResult where
  hasPII : Bool
  riskLevel : Risk
  findings : List Finding
  summary : String
deriving DecidableEq, Repr

/-- The risk-level update performed inside the detection loop:
if (pattern.risk is high and riskLevel is not high) riskLevel := high
else if (pattern.risk is medium and riskLevel is low) riskLevel := medium. -/
def updateRisk (current incoming : Risk) : Risk :=
  if incoming = .high ∧ current ≠ .high then .high
  else if incoming = .medium ∧ current = .low then .medium
  else current

/-- One iteration of the for-loop over Object.entries(this.patterns):
run the matcher, and when it fired push a Finding (count, risk, first two
sample matches) and update the running risk level. -/
def detectStep (text : String) (acc : List Finding × Risk) (p : Pattern) :
    List Finding × Risk :=
  let ms := p.matcher text
  if ms.length > 0 then
    (acc.1 ++ [{ type := p.type, count := ms.length, risk := p.risk,
                 examples := ms.take 2 }],
     updateRisk acc.2 p.risk)
  else
    acc

/-- PIIDetector._generateSummary. -/
def generateSummary (findings : List Finding) : String :=
  if findings.length = 0 then "No PII detected"
  else "Detected: " ++ String.intercalate ", " (findings.map (·.type))

/-- PIIDetector.detect: fold the registry, then assemble the result object. -/
def PIIDetector.detect (patterns : List Pattern) (text : String) : PIIResult :=
  let acc := patterns.foldl (detectStep text) ([], .low)
  { hasPII := acc.1.length > 0
    riskLevel := if acc.1.length > 0 then acc.2 else .low
    findings := acc.1
    summary := generateSummary acc.1 }

/-! ## Configuration (config.js) -/

structure Features where
  PII_DETECTION : Bool
  PROMPT_VARIANTS : Bool
  USAGE_LOGGING : Bool
  PROMPT_HISTORY : Bool
deriving DecidableEq, Repr

structure Config where
  API_URL : String
  FEATURES : Features
deriving DecidableEq, Repr

/-- The shipped CONFIG object of config.js (feature flags all enabled). -/
def CONFIG : Config :=
  { API_URL := "https://blah-subsequent-personal-synthetic.trycloudflare.com"
    FEATURES :=
      { PII_DETECTION := true
        PROMPT_VARIANTS := true
        USAGE_LOGGING := true
        PROMPT_HISTORY := true } }

/-! ## Variants -/

/-- A variant object as consumed by content-core.js and variant-modal.js
(fields text, score, improvements). -/
structure Variant where
  text : String
  score : Int
  improvements : List String
deriving DecidableEq, Repr

/-- The JSON body returned by the prompt-variants endpoint
(content-core reads variantData.variants). -/
structure VariantData where
  variants : List Variant
deriving DecidableEq, Repr

/-- VariantModal._createModal renders one card per element of data.variants,
titled with its 1-based index and showing variant.score and variant.text. -/
def createModalCards (variants : List Variant) : List (Nat × Int × String) :=
  variants.enum.map (fun iv => (iv.1 + 1, iv.2.score, iv.2.text))

/-! ## JavaScript errors -/

inductive JSError where
  | typeError (msg : String)
  | jsError (msg : String)
deriving DecidableEq, Repr

/-! ## APIClient (api-client.js) -/

structure Auth0Client where
  token : Option String
deriving DecidableEq, Repr

/-- The outcome of the awaited fetch plus response.json(), typed by payload. -/
structure FetchResult (α : Type) where
  ok : Bool
  status : Nat
  statusText : String
  value : α

/-- The APIClient instance state.  The JS constructor is
constructor(config, auth0Client); auth0Client is none when the second
argument was omitted at the call site (then it is undefined in JS). -/
structure APIClient where
  baseURL : String
  auth0Client : Option Auth0Client

/-- The methods the APIClient class declares (api-client.js).  Dynamic
dispatch on a name outside this list is a TypeError in JS. -/
def APIClient.methodNames : List String :=
  ["_request", "logUsage", "getPromptVariants", "logPromptHistory",
   "createAlert", "getPolicies", "hashPrompt"]

/-- JS method dispatch: obj.name(...) throws a TypeError when the class has
no such method, otherwise it runs the method body. -/
def jsMethodCall {α : Type} (methods : List String) (name : String)
    (impl : Except JSError α) : Except JSError α :=
  if name ∈ methods then impl
  else .error (.typeError (name ++ " is not a function"))

/-- APIClient._request: reads this.auth0Client.getToken() (a TypeError when
auth0Client is undefined), rejects on a missing token, performs the fetch
and rejects on a non-ok response (a dedicated message for 401). -/
def APIClient.request {α : Type} (c : APIClient) (endpoint : String)
    (fetch : String → FetchResult α) : Except JSError α :=
  match c.auth0Client with
  | none => .error (.typeError "Cannot read properties of undefined (reading getToken)")
  | some auth =>
    match auth.token with
    | none => .error (.jsError "Not authenticated. Please login first.")
    | some _ =>
      let resp := fetch (c.baseURL ++ endpoint)
      if resp.ok then .ok resp.value
      else if resp.status = 401 then
        .error (.jsError "Authentication expired. Please login again.")
      else
        .error (.jsError ("API request failed: " ++ toString resp.status ++ " "
                           ++ resp.statusText))

/-- APIClient.getPromptVariants (URLSearchParams percent-encoding abstracted
into plain concatenation; the endpoint string is irrelevant to the claims). -/
def APIClient.getPromptVariants (c : APIClient) (originalPrompt context : String)
    (fetch : String → FetchResult VariantData) : Except JSError VariantData :=
  let ctx := if context = "" then "general" else context
  c.request ("/prompt-variants/?original_prompt=" ++ originalPrompt
              ++ "&context=" ++ ctx) fetch

structure UsageData where
  tool : String
  promptHash : String
  riskLevel : Risk
deriving DecidableEq, Repr

/-- APIClient.logUsage. -/
def APIClient.logUsage (c : APIClient) (d : UsageData)
    (fetch : String → FetchResult Unit) : Except JSError Unit :=
  c.request "/usage-logs/" fetch

structure AlertDetails where
  tool : String
  piiTypes : List String
  riskLevel : Risk
deriving DecidableEq, Repr

/-- APIClient.createAlert. -/
def APIClient.createAlert (c : APIClient) (violationType : String)
    (details : AlertDetails) (fetch : String → FetchResult Unit) :
    Except JSError Unit :=
  c.request "/alerts" fetch

/-! ## ContentCore (content-core.js) -/

/-- ContentCore.constructor runs new APIClient(this.config) with a single
argument, so the auth0Client field of the client is undefined. -/
def ContentCore.mkApiClient (cfg : Config) : APIClient :=
  { baseURL := cfg.API_URL, auth0Client := none }

/-- The mutable fields of a ContentCore instance used by interception. -/
structure CoreState where
  isIntercepting : Bool
  isProgrammaticTrigger : Bool
  lastProcessedPrompt : Option String
  lastProcessedTime : Int
deriving DecidableEq, Repr

/-- Constructor initialisation: false / false / null / 0. -/
def CoreState.init : CoreState :=
  { isIntercepting := false
    isProgrammaticTrigger := false
    lastProcessedPrompt := none
    lastProcessedTime := 0 }

/-- The awaited outcomes and clock reads of one interaction:
now is Date.now() in _handleInteraction, finalizeTime is Date.now() in step 4
of _processPrompt, variantsOutcome is the awaited
apiClient.getPromptVariants result, modalSelection is the string
variantModal.show resolves with (a variant text, or the original prompt on
keep-original / dismiss), historyOutcome and usageOutcome are the awaited
results of the two logging calls (when their dispatch succeeds). -/
structure Env where
  now : Int
  finalizeTime : Int
  variantsOutcome : Except JSError VariantData
  modalSelection : String
  historyOutcome : Except JSError Unit
  usageOutcome : Except JSError Unit

/-- Observable effects of one _handleInteraction run. -/
structure Trace where
  scans : Nat
  piiAlerts : Nat
  complianceAlertAttempts : Nat
  loadingShown : Bool
  presented : Option (List Variant)
  historyAttempts : Nat
  usageAttempts : Nat
  released : Option String
  variantSelectedLogged : Option Int
deriving DecidableEq, Repr

def Trace.empty : Trace :=
  { scans := 0, piiAlerts := 0, complianceAlertAttempts := 0
    loadingShown := false, presented := none
    historyAttempts := 0, usageAttempts := 0
    released := none, variantSelectedLogged := none }

structure LogTrace where
  historyAttempts : Nat
  usageAttempts : Nat
deriving DecidableEq, Repr

/-- The body of the try block of ContentCore._logInteraction: when
PROMPT_HISTORY is set, dispatch this.apiClient.logPromptChoice (a method the
APIClient class does not declare, so the dispatch itself may throw), then
hash and await logUsage.  An error aborts the rest of the block; the
attempt counts made so far ride along with the error. -/
def logInteractionTry (cfg : Features) (env : Env) :
    Except (JSError × LogTrace) LogTrace :=
  if cfg.PROMPT_HISTORY then
    match jsMethodCall APIClient.methodNames "logPromptChoice" env.historyOutcome with
    | .error e => .error (e, { historyAttempts := 1, usageAttempts := 0 })
    | .ok _ =>
      match env.usageOutcome with
      | .error e => .error (e, { historyAttempts := 1, usageAttempts := 1 })
      | .ok _ => .ok { historyAttempts := 1, usageAttempts := 1 }
  else
    match env.usageOutcome with
    | .error e => .error (e, { historyAttempts := 0, usageAttempts := 1 })
    | .ok _ => .ok { historyAttempts := 0, usageAttempts := 1 }

/-- ContentCore._logInteraction: early return when USAGE_LOGGING is off,
otherwise the try body with a catch that only writes to the console. -/
def logInteraction (cfg : Features) (env : Env) : LogTrace :=
  if cfg.USAGE_LOGGING then
    match logInteractionTry cfg env with
    | .ok t => t
    | .error (_, t) => t
  else
    { historyAttempts := 0, usageAttempts := 0 }

/-- The guard of step 1 of ContentCore._processPrompt:
this.config.FEATURES.PII_DETECTION and piiResult.hasPII and
piiResult.riskLevel equals high. -/
def blocksPrompt (cfg : Features) (patterns : List Pattern) (prompt : String) : Bool :=
  cfg.PII_DETECTION && (PIIDetector.detect patterns prompt).hasPII
    && decide ((PIIDetector.detect patterns prompt).riskLevel = .high)

/-- The result of step 2 of ContentCore._processPrompt. -/
structure Enrichment where
  finalPrompt : String
  variantsOffered : Option (List Variant)
  variantSelected : Int
  loadingShown : Bool
  presented : Option (List Variant)
deriving DecidableEq, Repr

/-- Step 2 of ContentCore._processPrompt: when PROMPT_VARIANTS is on and the
prompt is longer than 10 characters, show the loading modal, await the
variants call inside a try/catch (a rejection closes the modal and keeps the
original), and on a non-empty variant list await the choice modal; a chosen
selection different from the original replaces the final prompt and its
index is looked up with findIndex (minus one when absent). -/
def enrichStep (cfg : Features) (env : Env) (originalPrompt : String) : Enrichment :=
  if cfg.PROMPT_VARIANTS = true ∧ originalPrompt.length > 10 then
    match env.variantsOutcome with
    | .error _ =>
      { finalPrompt := originalPrompt, variantsOffered := none
        variantSelected := -1, loadingShown := true, presented := none }
    | .ok vd =>
      if vd.variants.length > 0 then
        let selection := env.modalSelection
        if selection ≠ "" ∧ selection ≠ originalPrompt then
          let idx : Int :=
            match vd.variants.findIdx? (fun v => v.text = selection) with
            | some i => (i : Int)
            | none => -1
          { finalPrompt := selection, variantsOffered := some vd.variants
            variantSelected := idx, loadingShown := true
            presented := some vd.variants }
        else
          { finalPrompt := originalPrompt, variantsOffered := some vd.variants
            variantSelected := -1, loadingShown := true
            presented := some vd.variants }
      else
        { finalPrompt := originalPrompt, variantsOffered := none
          variantSelected := -1, loadingShown := true, presented := none }
  else
    { finalPrompt := originalPrompt, variantsOffered := none
      variantSelected := -1, loadingShown := false, presented := none }

/-- ContentCore._processPrompt.  Step 1 scans and, on the block guard, awaits
_handlePII (one block modal, then a best-effort createAlert inside its own
try/catch) and returns.  Otherwise step 2 enriches, step 3 fires
_logInteraction without awaiting it, and step 4 arms the duplicate window
(lastProcessedPrompt / lastProcessedTime) and schedules _triggerSend, which
sets isProgrammaticTrigger before clicking the send control. -/
def processPrompt (cfg : Features) (patterns : List Pattern) (env : Env)
    (st : CoreState) (originalPrompt : String) : CoreState × Trace :=
  if blocksPrompt cfg patterns originalPrompt then
    (st, { Trace.empty with scans := 1, piiAlerts := 1, complianceAlertAttempts := 1 })
  else
    let e := enrichStep cfg env originalPrompt
    let lt := logInteraction cfg env
    ({ st with
        lastProcessedPrompt := some e.finalPrompt
        lastProcessedTime := env.finalizeTime
        isProgrammaticTrigger := true },
     { scans := 1, piiAlerts := 0, complianceAlertAttempts := 0
       loadingShown := e.loadingShown, presented := e.presented
       historyAttempts := lt.historyAttempts, usageAttempts := lt.usageAttempts
       released := some e.finalPrompt
       variantSelectedLogged := some e.variantSelected })

/-- JS String.prototype.trim: strip whitespace from both ends (embedded
structurally over the character list so that it evaluates). -/
def jsTrim (s : String) : String :=
  ⟨((s.data.dropWhile Char.isWhitespace).reverse.dropWhile Char.isWhitespace).reverse⟩

/-- ContentCore._handleInteraction on the submit-intent event carrying the
current input text: drop while isIntercepting; drop empty (trimmed) text;
consume a programmatic trigger; drop a duplicate of the last finalized text
within 2000 ms; otherwise set isIntercepting, await _processPrompt, and
reset isIntercepting in the finally. -/
def handleInteraction (cfg : Features) (patterns : List Pattern) (env : Env)
    (st : CoreState) (inputText : String) : CoreState × Trace :=
  if st.isIntercepting then (st, Trace.empty)
  else
    let originalPrompt := jsTrim inputText
    if originalPrompt = "" then (st, Trace.empty)
    else if st.isProgrammaticTrigger then
      ({ st with isProgrammaticTrigger := false }, Trace.empty)
    else if st.lastProcessedPrompt = some originalPrompt ∧
            env.now - st.lastProcessedTime < 2000 then
      (st, Trace.empty)
    else
      let r := processPrompt cfg patterns env st originalPrompt
      ({ r.1 with isIntercepting := false }, r.2)

/-! ## claude.js content script (src/browser-extension/src/content/claude.js)

interceptPrompt wraps the whole pipeline in one try/catch whose catch
clause clicks the send button.  Inside the try: the PII branch shows
window.alert, awaits apiClient.createAlert and returns; the variants stage
has its own inner try/catch that only logs; usage logging is awaited outside
any inner try; the try ends by clicking the send button. -/

structure ClaudeEnv where
  variantsOutcome : Except JSError VariantData
  modalSelection : String
  usageOutcome : Except JSError Unit
deriving Repr

/-- Observable effects of one claude.js interceptPrompt run. -/
structure ClaudeTrace where
  blockAlerts : Nat
  alertPostAttempts : Nat
  sendClicks : Nat
deriving DecidableEq, Repr

/-- claude.js interceptPrompt, for a non-empty trimmed input text.  The
createAlert await sits between the block alert and the return statement;
when it rejects, control reaches the outer catch, which clicks send. -/
def interceptPrompt (cfg : Features) (patterns : List Pattern) (api : APIClient)
    (cenv : ClaudeEnv) (fetch : String → FetchResult Unit) (text : String) :
    ClaudeTrace :=
  let originalPrompt := jsTrim text
  if originalPrompt = "" then
    { blockAlerts := 0, alertPostAttempts := 0, sendClicks := 0 }
  else
    let pii := PIIDetector.detect patterns originalPrompt
    if cfg.PII_DETECTION = true ∧ pii.hasPII = true ∧ pii.riskLevel = .high then
      match api.createAlert "pii_detected"
          { tool := "claude", piiTypes := pii.findings.map (·.type)
            riskLevel := pii.riskLevel } fetch with
      | .ok _ => { blockAlerts := 1, alertPostAttempts := 1, sendClicks := 0 }
      | .error _ => { blockAlerts := 1, alertPostAttempts := 1, sendClicks := 1 }
    else
      -- variants stage failures are swallowed by the inner catch; the
      -- usage-logging await rejects into the outer catch; either way the
      -- send button is clicked exactly once at the end.
      match (if cfg.USAGE_LOGGING then cenv.usageOutcome else .ok ()) with
      | .error _ => { blockAlerts := 0, alertPostAttempts := 0, sendClicks := 1 }
      | .ok _ => { blockAlerts := 0, alertPostAttempts := 0, sendClicks := 1 }

/-! ## Concrete fixtures for witnesses and counterexamples

The registry entries below carry the kind and tier of the corresponding
entries of pii-detector.js; each matcher oracle is pinned to agree with the
JS regex on the specific strings the theorems evaluate (the email regex
matches a@b.com, the ssn regex matches 123-45-6789, and neither fires on
the other fixture strings). -/

def emailFixtureMatcher : String → List String := fun t =>
  if t = "a@b.com" ∨ t = "Contact me at a@b.com" then ["a@b.com"] else []

def ssnFixtureMatcher : String → List String := fun t =>
  if t = "My SSN is 123-45-6789" then ["123-45-6789"] else []

def fixturePatterns : List Pattern :=
  [ { type := "Email Address", risk := .high, matcher := emailFixtureMatcher },
    { type := "Social Security Number", risk := .high, matcher := ssnFixtureMatcher },
    { type := "IP Address", risk := .medium
      matcher := fun t => if t = "ping 10.0.0.1 now" then ["10.0.0.1"] else [] } ]

def fixtureFetchUnit : String → FetchResult Unit :=
  fun _ => { ok := false, status := 503, statusText := "Service Unavailable", value := () }

def fixtureFetchVariants : String → FetchResult VariantData :=
  fun _ => { ok := false, status := 503, statusText := "Service Unavailable"
             value := { variants := [] } }

def fixtureVariants : List Variant :=
  [ { text := "Variant one text", score := 88, improvements := ["clarity"] },
    { text := "Variant two text", score := 76, improvements := ["context"] },
    { text := "Variant three text", score := 64, improvements := ["tone"] } ]

def fixtureEnvFail : Env :=
  { now := 100, finalizeTime := 600
    variantsOutcome := .error (.typeError "Cannot read properties of undefined (reading getToken)")
    modalSelection := ""
    historyOutcome := .ok ()
    usageOutcome := .error (.jsError "API request failed: 503 Service Unavailable") }

def fixtureEnvOk : Env :=
  { now := 100, finalizeTime := 600
    variantsOutcome := .ok { variants := fixtureVariants }
    modalSelection := "Variant two text"
    historyOutcome := .ok ()
    usageOutcome := .ok () }

def fixtureClaudeEnv : ClaudeEnv :=
  { variantsOutcome := .error (.typeError "Cannot read properties of undefined (reading getToken)")
    modalSelection := ""
    usageOutcome := .error (.typeError "Cannot read properties of undefined (reading getToken)") }

/-! ## Helper lemmas -/

theorem updateRisk_eq_sup (a b : Risk) : updateRisk a b = Risk.sup a b := by
  cases a <;> cases b <;> rfl

theorem listRiskMax_append (xs : List Risk) (r : Risk) :
    listRiskMax (xs ++ [r]) = Risk.sup (listRiskMax xs) r := by
  simp [listRiskMax, List.foldl_append]

theorem detectFold_risk (text : String) (ps : List Pattern) :
    ∀ acc : List Finding × Risk,
      acc.2 = listRiskMax (acc.1.map Finding.risk) →
      (ps.foldl (detectStep text) acc).2
        = listRiskMax (((ps.foldl (detectStep text) acc).1).map Finding.risk) := by
  induction ps with
  | nil => intro acc h; simpa using h
  | cons p ps ih =>
    intro acc h
    simp only [List.foldl_cons]
    apply ih
    unfold detectStep
    by_cases hm : (p.matcher text).length > 0
    · simp only [hm, if_pos, if_true]
      rw [List.map_append]
      simp only [List.map_cons, List.map_nil]
      rw [listRiskMax_append, updateRisk_eq_sup, h]
    · simp [hm, h]

theorem detectFold_of_no_match (text : String) (ps : List Pattern)
    (h : ∀ p ∈ ps, p.matcher text = []) :
    ps.foldl (detectStep text) ([], Risk.low) = ([], Risk.low) := by
  induction ps with
  | nil => rfl
  | cons p ps ih =>
    have hp : p.matcher text = [] := h p (List.mem_cons_self p ps)
    simp only [List.foldl_cons]
    have hstep : detectStep text ([], Risk.low) p = ([], Risk.low) := by
      simp [detectStep, hp]
    rw [hstep]
    exact ih (fun q hq => h q (List.mem_cons_of_mem p hq))

theorem blocksPrompt_false_of_not_high (cfg : Features) (patterns : List Pattern)
    (prompt : String) (h : (PIIDetector.detect patterns prompt).riskLevel ≠ .high) :
    blocksPrompt cfg patterns prompt = false := by
  simp [blocksPrompt, h]

theorem logPromptChoice_missing {α : Type} (impl : Except JSError α) :
    jsMethodCall APIClient.methodNames "logPromptChoice" impl
      = .error (.typeError "logPromptChoice is not a function") := by
  rfl

theorem logInteraction_history_count (cfg : Features) (env : Env)
    (h1 : cfg.USAGE_LOGGING = true) (h2 : cfg.PROMPT_HISTORY = true) :
    (logInteraction cfg env).historyAttempts = 1 := by
  simp only [logInteraction, logInteractionTry, h1, h2, if_true,
    logPromptChoice_missing]

theorem enrichStep_finalPrompt_ne_empty (cfg : Features) (env : Env)
    (s : String) (h : s ≠ "") : (enrichStep cfg env s).finalPrompt ≠ "" := by
  unfold enrichStep
  by_cases hg : cfg.PROMPT_VARIANTS = true ∧ s.length > 10
  · simp only [hg, if_true]
    cases hvo : env.variantsOutcome with
    | error e => simpa using h
    | ok vd =>
      by_cases hl : vd.variants.length > 0
      · by_cases hsel : env.modalSelection ≠ "" ∧ env.modalSelection ≠ s
        · simp [hl, hsel, hsel.1]
        · simp [hl, hsel, h]
      · simp [hl, h]
  · simpa [hg] using h

/-! ## Claim theorems -/

/-- C2: while an attempt is in flight (isIntercepting set), a new submit
intent for the same surface is a silent no-op: the state is unchanged
(nothing is queued) and the trace is empty (in particular no scan starts). -/
theorem c2_single_flight (cfg : Features) (patterns : List Pattern) (env : Env)
    (st : CoreState) (inputText : String) (h : st.isIntercepting = true) :
    handleInteraction cfg patterns env st inputText = (st, Trace.empty) := by
  simp [handleInteraction, h]

theorem c2_single_flight_witness :
    handleInteraction CONFIG.FEATURES fixturePatterns fixtureEnvOk
      { CoreState.init with isIntercepting := true } "Contact me at a@b.com"
      = ({ CoreState.init with isIntercepting := true }, Trace.empty) :=
  c2_single_flight _ _ _ _ _ rfl

/-- C4: for every registry and every input text, hasPII holds exactly when
the findings list is non-empty, the overall risk level is the maximum tier
among the findings (high > medium > low), and when no registered matcher
fires the result is hasPII false, risk low, no findings. -/
theorem c4_scan_aggregation (patterns : List Pattern) (text : String) :
    ((PIIDetector.detect patterns text).hasPII = true ↔
        (PIIDetector.detect patterns text).findings ≠ [])
    ∧ (PIIDetector.detect patterns text).riskLevel
        = listRiskMax ((PIIDetector.detect patterns text).findings.map Finding.risk)
    ∧ ((∀ p ∈ patterns, p.matcher text = []) →
        PIIDetector.detect patterns text
          = { hasPII := false, riskLevel := .low, findings := [],
              summary := "No PII detected" }) := by
  have hinv := detectFold_risk text patterns ([], Risk.low) (by rfl)
  refine ⟨?_, ?_, ?_⟩
  · simp [PIIDetector.detect, List.length_pos]
  · unfold PIIDetector.detect
    by_cases hl : (patterns.foldl (detectStep text) ([], Risk.low)).1.length > 0
    · simpa [hl] using hinv
    · have : (patterns.foldl (detectStep text) ([], Risk.low)).1 = [] := by
        simpa using List.eq_nil_of_length_eq_zero (Nat.eq_zero_of_not_pos hl)
      simp [hl, this, listRiskMax]
  · intro h
    unfold PIIDetector.detect
    rw [detectFold_of_no_match text patterns h]
    rfl

theorem c4_scan_aggregation_witness :
    PIIDetector.detect fixturePatterns "hello world"
      = { hasPII := false, riskLevel := .low, findings := [],
          summary := "No PII detected" } :=
  (c4_scan_aggregation fixturePatterns "hello world").2.2
    (by intro p hp; fin_cases hp <;> rfl)

/-- C5 counterexample: a blocked attempt (high-risk email finding, shipped
feature flags) makes zero history-record calls; the blocked path only posts
one compliance alert and never releases, so no HistoryRecord is recorded
for it, contradicting the claim. -/
theorem c5_counterexample :
    (processPrompt CONFIG.FEATURES fixturePatterns fixtureEnvOk CoreState.init
        "Contact me at a@b.com").2.historyAttempts = 0
    ∧ (processPrompt CONFIG.FEATURES fixturePatterns fixtureEnvOk CoreState.init
        "Contact me at a@b.com").2.usageAttempts = 0
    ∧ (processPrompt CONFIG.FEATURES fixturePatterns fixtureEnvOk CoreState.init
        "Contact me at a@b.com").2.released = none
    ∧ (processPrompt CONFIG.FEATURES fixturePatterns fixtureEnvOk CoreState.init
        "Contact me at a@b.com").2.complianceAlertAttempts = 1 := by
  refine ⟨rfl, rfl, rfl, rfl⟩

/-- C5 amended: for every attempt that terminates blocked, no HistoryRecord
write is attempted (and no usage log either); the blocked path instead
posts one best-effort compliance alert and never releases. -/
theorem c5_amended (cfg : Features) (patterns : List Pattern) (env : Env)
    (st : CoreState) (prompt : String)
    (h : blocksPrompt cfg patterns prompt = true) :
    (processPrompt cfg patterns env st prompt).2.historyAttempts = 0
    ∧ (processPrompt cfg patterns env st prompt).2.usageAttempts = 0
    ∧ (processPrompt cfg patterns env st prompt).2.complianceAlertAttempts = 1
    ∧ (processPrompt cfg patterns env st prompt).2.released = none := by
  simp [processPrompt, h, Trace.empty]

theorem c5_amended_witness :
    blocksPrompt CONFIG.FEATURES fixturePatterns "My SSN is 123-45-6789" = true
    ∧ (processPrompt CONFIG.FEATURES fixturePatterns fixtureEnvOk CoreState.init
        "My SSN is 123-45-6789").2.historyAttempts = 0 :=
  ⟨rfl, (c5_amended CONFIG.FEATURES fixturePatterns fixtureEnvOk CoreState.init
      "My SSN is 123-45-6789" rfl).1⟩

/-- C8 counterexample: the 7-character prompt a@b.com is below the minimum
threshold, yet (with the shipped flags) the controller blocks it on the
high-risk email finding instead of finalizing: it is never released and no
decision with chosenVariantIndex -1 is produced, contradicting the claim
for attempts below the threshold. -/
theorem c8_counterexample :
    ("a@b.com".length < 10)
    ∧ (processPrompt CONFIG.FEATURES fixturePatterns fixtureEnvOk CoreState.init
        "a@b.com").2.released = none
    ∧ (processPrompt CONFIG.FEATURES fixturePatterns fixtureEnvOk CoreState.init
        "a@b.com").2.variantSelectedLogged = none := by
  refine ⟨by decide, rfl, rfl⟩

/-- C8 amended: for every attempt that is not blocked by the PII gate and
whose prompt length is below 10 characters, the controller skips enrichment
entirely (no loading modal, no variants presented) and releases the
original text with selected-variant index -1. -/
theorem c8_amended (cfg : Features) (patterns : List Pattern) (env : Env)
    (st : CoreState) (prompt : String)
    (hnb : blocksPrompt cfg patterns prompt = false)
    (hlen : prompt.length < 10) :
    (processPrompt cfg patterns env st prompt).2.loadingShown = false
    ∧ (processPrompt cfg patterns env st prompt).2.presented = none
    ∧ (processPrompt cfg patterns env st prompt).2.released = some prompt
    ∧ (processPrompt cfg patterns env st prompt).2.variantSelectedLogged = some (-1) := by
  have hg : ¬ (cfg.PROMPT_VARIANTS = true ∧ prompt.length > 10) := by
    rintro ⟨-, hgt⟩; omega
  simp [processPrompt, hnb, enrichStep, hg]

theorem c8_amended_witness :
    ("ok".length < 10)
    ∧ (processPrompt CONFIG.FEATURES fixturePatterns fixtureEnvOk CoreState.init
        "ok").2.released = some "ok"
    ∧ (processPrompt CONFIG.FEATURES fixturePatterns fixtureEnvOk CoreState.init
        "ok").2.variantSelectedLogged = some (-1) :=
  ⟨by decide,
   (c8_amended CONFIG.FEATURES fixturePatterns fixtureEnvOk CoreState.init "ok"
      rfl (by decide)).2.2.1,
   (c8_amended CONFIG.FEATURES fixturePatterns fixtureEnvOk CoreState.init "ok"
      rfl (by decide)).2.2.2⟩

/-- C1: failing-input evaluation.  On the claude.js surface, a prompt with a
high-risk SSN finding (shipped flags, the APIClient as ContentCore and
claude.js construct it, without an auth0 client) shows the block alert, but
the awaited createAlert rejects and the outer catch clicks the send button:
the blocked prompt is submitted, so the attempt does not stay blocked. -/
theorem c1_claude_blocked_prompt_submitted :
    interceptPrompt CONFIG.FEATURES fixturePatterns (ContentCore.mkApiClient CONFIG)
      fixtureClaudeEnv fixtureFetchUnit "My SSN is 123-45-6789"
      = { blockAlerts := 1, alertPostAttempts := 1, sendClicks := 1 } := by
  rfl

/-- True when the awaited variants call rejected or resolved with an empty
variant list. -/
def variantCallFailed (env : Env) : Bool :=
  match env.variantsOutcome with
  | .error _ => true
  | .ok vd => vd.variants.isEmpty

/-- C3: for every attempt whose scan risk is not high, when the variants
call rejects or yields no variants the controller still releases with the
final text equal to the original prompt, presenting no choice modal. -/
theorem c3_fail_open (cfg : Features) (patterns : List Pattern) (env : Env)
    (st : CoreState) (prompt : String)
    (h1 : (PIIDetector.detect patterns prompt).riskLevel ≠ .high)
    (h2 : variantCallFailed env = true) :
    (processPrompt cfg patterns env st prompt).2.released = some prompt
    ∧ (processPrompt cfg patterns env st prompt).2.presented = none := by
  have hb := blocksPrompt_false_of_not_high cfg patterns prompt h1
  have he : (enrichStep cfg env prompt).finalPrompt = prompt
      ∧ (enrichStep cfg env prompt).presented = none := by
    unfold enrichStep
    by_cases hg : cfg.PROMPT_VARIANTS = true ∧ prompt.length > 10
    · simp only [hg, if_true]
      cases hvo : env.variantsOutcome with
      | error e => simp
      | ok vd =>
        have hempty : vd.variants.isEmpty = true := by
          simpa [variantCallFailed, hvo] using h2
        have hlen : ¬ vd.variants.length > 0 := by
          simp [List.isEmpty_iff] at hempty
          simp [hempty]
        simp [hlen]
    · simp [hg]
  simp [processPrompt, hb, he.1, he.2]

theorem c3_fail_open_witness :
    (processPrompt CONFIG.FEATURES fixturePatterns fixtureEnvFail CoreState.init
        "please summarize quarterly revenue").2.released
      = some "please summarize quarterly revenue"
    ∧ (processPrompt CONFIG.FEATURES fixturePatterns fixtureEnvFail CoreState.init
        "please summarize quarterly revenue").2.presented = none :=
  c3_fail_open CONFIG.FEATURES fixturePatterns fixtureEnvFail CoreState.init
    "please summarize quarterly revenue" (by decide) rfl

/-- Modelled from the spec: the Generation Service behind the
prompt-variants endpoint is the FastAPI backend, which is not under src
(only backend/README.md documents it).  Per the spec it returns exactly 3
candidate rewrites, each carrying a 0-100 quality score, or an explicit
failure; it never returns 1 or 2 candidates silently. -/
structure GenerationService where
  generate : String → Except JSError VariantData
  count_ok : ∀ p vd, generate p = .ok vd → vd.variants.length = 3
  score_ok : ∀ p vd, generate p = .ok vd → ∀ v ∈ vd.variants, 0 ≤ v.score ∧ v.score ≤ 100

/-- C6: for every attempt that is not blocked and is long enough for
enrichment, when the spec-modelled Generation Service succeeds the
controller presents exactly the returned variants in the choice modal: 3
cards, each with a score in the range 0 to 100. -/
theorem c6_three_variants (svc : GenerationService) (cfg : Features)
    (patterns : List Pattern) (env : Env) (st : CoreState) (prompt : String)
    (vd : VariantData)
    (hvo : env.variantsOutcome = svc.generate prompt)
    (hok : svc.generate prompt = .ok vd)
    (hnb : blocksPrompt cfg patterns prompt = false)
    (hpv : cfg.PROMPT_VARIANTS = true)
    (hlen : prompt.length > 10) :
    (processPrompt cfg patterns env st prompt).2.presented = some vd.variants
    ∧ vd.variants.length = 3
    ∧ (createModalCards vd.variants).length = 3
    ∧ (∀ v ∈ vd.variants, 0 ≤ v.score ∧ v.score ≤ 100) := by
  have hcount := svc.count_ok prompt vd hok
  have hscores := svc.score_ok prompt vd hok
  have hvd : env.variantsOutcome = .ok vd := hvo.trans hok
  have hg : cfg.PROMPT_VARIANTS = true ∧ prompt.length > 10 := ⟨hpv, hlen⟩
  have hpos : vd.variants.length > 0 := by omega
  have hpres : (enrichStep cfg env prompt).presented = some vd.variants := by
    unfold enrichStep
    rw [hvd]
    by_cases hsel : env.modalSelection ≠ "" ∧ env.modalSelection ≠ prompt
    · simp [hg, hpos, hsel]
    · simp [hg, hpos, hsel]
  refine ⟨?_, hcount, ?_, hscores⟩
  · simp [processPrompt, hnb, hpres]
  · simp [createModalCards, hcount]

def fixtureService : GenerationService :=
  { generate := fun _ => .ok { variants := fixtureVariants }
    count_ok := by
      intro p vd h
      injection h with h
      subst h
      rfl
    score_ok := by
      intro p vd h
      injection h with h
      subst h
      decide }

def fixtureEnvService : Env :=
  { now := 100, finalizeTime := 600
    variantsOutcome := fixtureService.generate "please improve this prompt"
    modalSelection := "Variant two text"
    historyOutcome := .ok ()
    usageOutcome := .ok () }

theorem c6_three_variants_witness :
    (processPrompt CONFIG.FEATURES fixturePatterns fixtureEnvService CoreState.init
        "please improve this prompt").2.presented = some fixtureVariants
    ∧ fixtureVariants.length = 3
    ∧ (∀ v ∈ fixtureVariants, 0 ≤ v.score ∧ v.score ≤ 100) :=
  have h := c6_three_variants fixtureService CONFIG.FEATURES fixturePatterns
    fixtureEnvService CoreState.init "please improve this prompt"
    { variants := fixtureVariants } rfl rfl rfl rfl (by decide)
  ⟨h.1, h.2.1, h.2.2.2⟩

/-- C9: when the logging pipeline of _logInteraction fails (for any reason,
including the missing logPromptChoice method or a rejected usage-log call),
the failure is caught and the controller still releases the attempt with
the same final text; the released value is identical to the one obtained
when both logging calls succeed. -/
theorem c9_logging_best_effort (cfg : Features) (patterns : List Pattern)
    (env : Env) (st : CoreState) (prompt : String) (e : JSError) (lt : LogTrace)
    (hnb : blocksPrompt cfg patterns prompt = false)
    (hfail : logInteractionTry cfg env = .error (e, lt)) :
    (processPrompt cfg patterns env st prompt).2.released
      = some (enrichStep cfg env prompt).finalPrompt
    ∧ (processPrompt cfg patterns env st prompt).2.released
      = (processPrompt cfg patterns
          { env with historyOutcome := .ok (), usageOutcome := .ok () }
          st prompt).2.released := by
  constructor
  · simp [processPrompt, hnb]
  · simp only [processPrompt, hnb, Bool.false_eq_true, if_false]
    rfl

theorem c9_logging_best_effort_witness :
    logInteractionTry CONFIG.FEATURES fixtureEnvFail
      = .error (.typeError "logPromptChoice is not a function",
                { historyAttempts := 1, usageAttempts := 0 })
    ∧ (processPrompt CONFIG.FEATURES fixturePatterns fixtureEnvFail CoreState.init
        "please summarize quarterly revenue").2.released
      = some "please summarize quarterly revenue" :=
  ⟨rfl,
   (c9_logging_best_effort CONFIG.FEATURES fixturePatterns fixtureEnvFail
      CoreState.init "please summarize quarterly revenue"
      (.typeError "logPromptChoice is not a function")
      { historyAttempts := 1, usageAttempts := 0 } rfl rfl).1⟩

/-- C10: the APIClient that ContentCore constructs has no auth0 client, so
_request and each endpoint wrapper reject with the token-lookup TypeError on
every invocation, whatever the fetch would return; the class declares no
logPromptChoice method, so the history call is a TypeError as well; hence a
non-blocked attempt under this wiring always takes the enrichment-failure
branch (no variants presented) and still releases the original text. -/
theorem c10_wiring_always_fails (cfg : Config) (endpoint p ctx : String)
    (d : UsageData) (vt : String) (ad : AlertDetails)
    (fetchU : String → FetchResult Unit)
    (fetchV : String → FetchResult VariantData) :
    (ContentCore.mkApiClient cfg).auth0Client = none
    ∧ (ContentCore.mkApiClient cfg).request endpoint fetchU
        = .error (.typeError "Cannot read properties of undefined (reading getToken)")
    ∧ (ContentCore.mkApiClient cfg).getPromptVariants p ctx fetchV
        = .error (.typeError "Cannot read properties of undefined (reading getToken)")
    ∧ (ContentCore.mkApiClient cfg).logUsage d fetchU
        = .error (.typeError "Cannot read properties of undefined (reading getToken)")
    ∧ (ContentCore.mkApiClient cfg).createAlert vt ad fetchU
        = .error (.typeError "Cannot read properties of undefined (reading getToken)")
    ∧ "logPromptChoice" ∉ APIClient.methodNames
    ∧ (∀ impl : Except JSError Unit,
        jsMethodCall APIClient.methodNames "logPromptChoice" impl
          = .error (.typeError "logPromptChoice is not a function"))
    ∧ (∀ (patterns : List Pattern) (env : Env) (st : CoreState),
        env.variantsOutcome = (ContentCore.mkApiClient cfg).getPromptVariants p ctx fetchV →
        blocksPrompt cfg.FEATURES patterns p = false →
        (processPrompt cfg.FEATURES patterns env st p).2.presented = none
        ∧ (processPrompt cfg.FEATURES patterns env st p).2.released = some p) := by
  refine ⟨rfl, rfl, rfl, rfl, rfl, by decide, fun impl => rfl, ?_⟩
  intro patterns env st hvo hnb
  have hfail : variantCallFailed env = true := by
    simp [variantCallFailed, hvo, APIClient.getPromptVariants, APIClient.request,
      ContentCore.mkApiClient]
  have hfp : (enrichStep cfg.FEATURES env p).finalPrompt = p
      ∧ (enrichStep cfg.FEATURES env p).presented = none := by
    unfold enrichStep
    by_cases hg : cfg.FEATURES.PROMPT_VARIANTS = true ∧ p.length > 10
    · have hvo2 : env.variantsOutcome
          = .error (.typeError "Cannot read properties of undefined (reading getToken)") := hvo
      simp [hg, hvo2]
    · simp [hg]
  constructor
  · simp [processPrompt, hnb, hfp.2]
  · simp [processPrompt, hnb, hfp.1]

theorem c10_wiring_always_fails_witness :
    (ContentCore.mkApiClient CONFIG).getPromptVariants
        "write tests for the parser module" "chatgpt" fixtureFetchVariants
      = .error (.typeError "Cannot read properties of undefined (reading getToken)")
    ∧ "logPromptChoice" ∉ APIClient.methodNames :=
  have h := c10_wiring_always_fails CONFIG "/usage-logs/"
    "write tests for the parser module" "chatgpt"
    { tool := "chatgpt", promptHash := "abc", riskLevel := .low }
    "pii_detected"
    { tool := "chatgpt", piiTypes := [], riskLevel := .high }
    fixtureFetchUnit fixtureFetchVariants
  ⟨h.2.2.1, h.2.2.2.2.2.1⟩

/-- C7: starting from a fresh surface, a finalized attempt arms the
duplicate window; the programmatic re-submission consumes the trigger flag
as a no-op, and a second user submit whose trimmed text equals the
finalized final text, arriving within 2000 ms of the finalize timestamp, is
dropped as a no-op, so the pair of identical submits makes exactly one
history-record attempt (when the logging features are enabled), not two. -/
theorem c7_duplicate_window (cfg : Features) (patterns : List Pattern)
    (env1 envp env2 : Env) (text tp t2 : String)
    (h0 : jsTrim text ≠ "")
    (hnb : blocksPrompt cfg patterns (jsTrim text) = false)
    (htp : jsTrim tp ≠ "")
    (hdup : jsTrim t2 = (enrichStep cfg env1 (jsTrim text)).finalPrompt)
    (hwin : env2.now - env1.finalizeTime < 2000) :
    (handleInteraction cfg patterns envp
        (handleInteraction cfg patterns env1 CoreState.init text).1 tp).2 = Trace.empty
    ∧ (handleInteraction cfg patterns env2
        (handleInteraction cfg patterns envp
          (handleInteraction cfg patterns env1 CoreState.init text).1 tp).1 t2).2
        = Trace.empty
    ∧ ((handleInteraction cfg patterns env1 CoreState.init text).2.historyAttempts
        + (handleInteraction cfg patterns envp
            (handleInteraction cfg patterns env1 CoreState.init text).1 tp).2.historyAttempts
        + (handleInteraction cfg patterns env2
            (handleInteraction cfg patterns envp
              (handleInteraction cfg patterns env1 CoreState.init text).1 tp).1 t2).2.historyAttempts
        = (handleInteraction cfg patterns env1 CoreState.init text).2.historyAttempts)
    ∧ (cfg.USAGE_LOGGING = true → cfg.PROMPT_HISTORY = true →
        (handleInteraction cfg patterns env1 CoreState.init text).2.historyAttempts
        + (handleInteraction cfg patterns envp
            (handleInteraction cfg patterns env1 CoreState.init text).1 tp).2.historyAttempts
        + (handleInteraction cfg patterns env2
            (handleInteraction cfg patterns envp
              (handleInteraction cfg patterns env1 CoreState.init text).1 tp).1 t2).2.historyAttempts
        = 1) := by
  have hst1 : (handleInteraction cfg patterns env1 CoreState.init text).1
      = { isIntercepting := false, isProgrammaticTrigger := true
          lastProcessedPrompt := some (enrichStep cfg env1 (jsTrim text)).finalPrompt
          lastProcessedTime := env1.finalizeTime } := by
    simp [handleInteraction, CoreState.init, h0, processPrompt, hnb]
  have htr1 : (handleInteraction cfg patterns env1 CoreState.init text).2.historyAttempts
      = (logInteraction cfg env1).historyAttempts := by
    simp [handleInteraction, CoreState.init, h0, processPrompt, hnb]
  have hs2 : handleInteraction cfg patterns envp
      (handleInteraction cfg patterns env1 CoreState.init text).1 tp
      = ({ isIntercepting := false, isProgrammaticTrigger := false
           lastProcessedPrompt := some (enrichStep cfg env1 (jsTrim text)).finalPrompt
           lastProcessedTime := env1.finalizeTime }, Trace.empty) := by
    rw [hst1]
    simp [handleInteraction, htp]
  have hfne : (enrichStep cfg env1 (jsTrim text)).finalPrompt ≠ "" :=
    enrichStep_finalPrompt_ne_empty cfg env1 (jsTrim text) h0
  have ht2ne : jsTrim t2 ≠ "" := by rw [hdup]; exact hfne
  have hs3 : handleInteraction cfg patterns env2
      ({ isIntercepting := false, isProgrammaticTrigger := false
         lastProcessedPrompt := some (enrichStep cfg env1 (jsTrim text)).finalPrompt
         lastProcessedTime := env1.finalizeTime } : CoreState) t2
      = ({ isIntercepting := false, isProgrammaticTrigger := false
           lastProcessedPrompt := some (enrichStep cfg env1 (jsTrim text)).finalPrompt
           lastProcessedTime := env1.finalizeTime }, Trace.empty) := by
    simp [handleInteraction, ht2ne, ← hdup, hwin]
  refine ⟨?_, ?_, ?_, ?_⟩
  · rw [hs2]
  · rw [hs2, hs3]
  · rw [hs2, hs3]
    simp [Trace.empty]
  · intro hu hp
    rw [hs2, hs3, htr1]
    simp [Trace.empty, logInteraction_history_count cfg env1 hu hp]

theorem c7_duplicate_window_witness :
    (handleInteraction CONFIG.FEATURES fixturePatterns fixtureEnvFail CoreState.init
        "please summarize quarterly revenue").2.historyAttempts
    + (handleInteraction CONFIG.FEATURES fixturePatterns fixtureEnvOk
        (handleInteraction CONFIG.FEATURES fixturePatterns fixtureEnvFail CoreState.init
          "please summarize quarterly revenue").1
        "please summarize quarterly revenue").2.historyAttempts
    + (handleInteraction CONFIG.FEATURES fixturePatterns fixtureEnvFail
        (handleInteraction CONFIG.FEATURES fixturePatterns fixtureEnvOk
          (handleInteraction CONFIG.FEATURES fixturePatterns fixtureEnvFail CoreState.init
            "please summarize quarterly revenue").1
          "please summarize quarterly revenue").1
        "please summarize quarterly revenue").2.historyAttempts
    = 1 :=
  (c7_duplicate_window CONFIG.FEATURES fixturePatterns fixtureEnvFail fixtureEnvOk
    fixtureEnvFail "please summarize quarterly revenue"
    "please summarize quarterly revenue" "please summarize quarterly revenue"
    (by decide) rfl (by decide) rfl (by decide)).2.2.2 rfl rfl

end AIGov
